import Mathlib

/-!
Verification of the configuration module of the Employee Management System
repository (`src/core/config.py`).

The module defines three data structures:
* `DatabaseConfig` — PostgreSQL connection settings, a dataclass with string
  field defaults, built from the environment by `DatabaseConfig.from_env`;
* `AppConfig` — fixed application settings (a dataclass with defaults only);
* `Config` — a lazily cached singleton aggregating both, with `get_instance`
  and `reset` class methods operating on the class attribute `_instance`.

The embedding makes the process environment explicit (`Env`, a map from
variable names to optional string values) and the singleton cache explicit
(`ConfigState`).  Python object identity is modelled by tagging each
constructed `Config` instance with an allocation number: `ConfigState.nextId`
grows by one at each construction, so two instances are "the same object"
exactly when their tags coincide.
-/

namespace EMS

/-- The process environment: each variable name is either set to a string
value or unset.  `load_dotenv()` runs before any read, so `Env` is the
environment state after that load. -/
abbrev Env : Type := String → Option String

/-- Model of Python `os.getenv(key, default)`: the variable's value if set,
otherwise the supplied default. -/
def getenv (env : Env) (key dflt : String) : String :=
  (env key).getD dflt

/-- The dataclass `DatabaseConfig` of `src/core/config.py`, with its
class-level field defaults. -/
structure DatabaseConfig where
  dbname : String := "empls_db"
  user : String := "postgres"
  password : String := "0123"
  host : String := "localhost"
  port : String := "5432"
  deriving DecidableEq

/-- `DatabaseConfig.from_env`: reads `DB_NAME`, `DB_USER`, `DB_PASSWORD`,
`DB_HOST`, `DB_PORT`, each with the class attribute (field default) as the
`os.getenv` fallback, exactly as in the source. -/
def DatabaseConfig.from_env (env : Env) : DatabaseConfig :=
  { dbname := getenv env "DB_NAME" ({} : DatabaseConfig).dbname
    user := getenv env "DB_USER" ({} : DatabaseConfig).user
    password := getenv env "DB_PASSWORD" ({} : DatabaseConfig).password
    host := getenv env "DB_HOST" ({} : DatabaseConfig).host
    port := getenv env "DB_PORT" ({} : DatabaseConfig).port }

/-- The dataclass `AppConfig` of `src/core/config.py`, all fields fixed
defaults; nothing reads the environment here. -/
structure AppConfig where
  app_name : String := "Employee Systems"
  version : String := "1.01"
  debug : Bool := false
  log_level : String := "INFO"
  log_file_pattern : String := "app_errors_{date}.log"
  deriving DecidableEq

/-- The `Config` aggregate: one `DatabaseConfig` and one `AppConfig`. -/
structure Config where
  database : DatabaseConfig
  app : AppConfig
  deriving DecidableEq

/-- `Config.__init__`: builds `database` from the environment and `app`
with fixed defaults. -/
def Config.init (env : Env) : Config :=
  { database := DatabaseConfig.from_env env, app := {} }

/-- The mutable class-level state of `Config`: the cached instance
(`Config._instance`, `None` when empty), paired with an allocation counter
that models Python object identity (each construction gets a fresh tag). -/
structure ConfigState where
  cache : Option (Nat × Config)
  nextId : Nat
  deriving DecidableEq

/-- The state at process start: no instance has ever been cached. -/
def ConfigState.initial : ConfigState := ⟨none, 0⟩

/-- `Config.get_instance`: returns the cached instance if present; otherwise
constructs `cls()` (reading the environment), caches it, and returns it.
The result pairs the returned instance (tag and value) with the new state. -/
def Config.get_instance (env : Env) (s : ConfigState) :
    (Nat × Config) × ConfigState :=
  match s.cache with
  | some inst => (inst, s)
  | none =>
      let inst := (s.nextId, Config.init env)
      (inst, { cache := some inst, nextId := s.nextId + 1 })

/-- `Config.reset`: sets `cls._instance = None`.  The allocation counter is
not an attribute of the Python class; it only tracks identity of objects
already created, so it is unchanged. -/
def Config.reset (s : ConfigState) : ConfigState :=
  { cache := none, nextId := s.nextId }

/-- State after a retrieval. -/
def getState (env : Env) (s : ConfigState) : ConfigState :=
  (Config.get_instance env s).2

/-- Instance returned by a retrieval. -/
def getInst (env : Env) (s : ConfigState) : Nat × Config :=
  (Config.get_instance env s).1

/-- Well-formedness of a cache state: any cached instance was allocated
before the current value of the allocation counter.  This holds at process
start and is preserved by every operation. -/
def WF (s : ConfigState) : Prop :=
  match s.cache with
  | none => True
  | some inst => inst.1 < s.nextId

/-- The five database environment variables, in the order the source
reads them. -/
def fiveKeys : List String :=
  ["DB_NAME", "DB_USER", "DB_PASSWORD", "DB_HOST", "DB_PORT"]

/-- `os.getenv` instrumented to log which variable it reads. -/
def getenvL (env : Env) (key dflt : String) : String × List String :=
  (getenv env key dflt, [key])

/-- `DatabaseConfig.from_env` instrumented with the list of environment
reads it performs, in order. -/
def DatabaseConfig.from_envL (env : Env) : DatabaseConfig × List String :=
  let n := getenvL env "DB_NAME" ({} : DatabaseConfig).dbname
  let u := getenvL env "DB_USER" ({} : DatabaseConfig).user
  let pw := getenvL env "DB_PASSWORD" ({} : DatabaseConfig).password
  let h := getenvL env "DB_HOST" ({} : DatabaseConfig).host
  let po := getenvL env "DB_PORT" ({} : DatabaseConfig).port
  ({ dbname := n.1, user := u.1, password := pw.1, host := h.1, port := po.1 },
    n.2 ++ u.2 ++ pw.2 ++ h.2 ++ po.2)

/-- `Config.__init__` instrumented with its environment reads. -/
def Config.initL (env : Env) : Config × List String :=
  let d := DatabaseConfig.from_envL env
  ({ database := d.1, app := {} }, d.2)

/-- `Config.get_instance` instrumented with its environment reads: a cache
hit reads nothing, a construction performs exactly the reads of
`Config.__init__`. -/
def Config.get_instanceL (env : Env) (s : ConfigState) :
    ((Nat × Config) × ConfigState) × List String :=
  match s.cache with
  | some inst => ((inst, s), [])
  | none =>
      let c := Config.initL env
      let inst := (s.nextId, c.1)
      ((inst, { cache := some inst, nextId := s.nextId + 1 }), c.2)

/-- The operations a caller can perform on the singleton. -/
inductive Op where
  | get
  | reset
  deriving DecidableEq

/-- One step of the singleton state machine, returning the new state and
the list of environment variables read during the step. -/
def step (env : Env) (s : ConfigState) : Op → ConfigState × List String
  | Op.get => ((Config.get_instanceL env s).1.2, (Config.get_instanceL env s).2)
  | Op.reset => (Config.reset s, [])

/-- A run of the state machine: the per-step environment-read logs. -/
def run (env : Env) : ConfigState → List Op → List (List String)
  | _, [] => []
  | s, op :: ops => (step env s op).2 :: run env (step env s op).1 ops

/-- `os.getenv(key, default)` in the `Except` embedding: it never raises
for a string key, so it always succeeds. -/
def getenvExc (env : Env) (key dflt : String) : Except String String :=
  Except.ok (getenv env key dflt)

/-- `DatabaseConfig.from_env` in the `Except` embedding: no statement in
its body can raise. -/
def DatabaseConfig.from_envExc (env : Env) : Except String DatabaseConfig := do
  let n ← getenvExc env "DB_NAME" ({} : DatabaseConfig).dbname
  let u ← getenvExc env "DB_USER" ({} : DatabaseConfig).user
  let pw ← getenvExc env "DB_PASSWORD" ({} : DatabaseConfig).password
  let h ← getenvExc env "DB_HOST" ({} : DatabaseConfig).host
  let po ← getenvExc env "DB_PORT" ({} : DatabaseConfig).port
  return { dbname := n, user := u, password := pw, host := h, port := po }

/-- Construction of `AppConfig()` in the `Except` embedding: dataclass
default construction cannot raise. -/
def AppConfig.makeExc : Except String AppConfig :=
  Except.ok {}

/-- `Config.get_instance` in the `Except` embedding. -/
def Config.get_instanceExc (env : Env) (s : ConfigState) :
    Except String ((Nat × Config) × ConfigState) :=
  match s.cache with
  | some inst => Except.ok (inst, s)
  | none => do
      let db ← DatabaseConfig.from_envExc env
      let a ← AppConfig.makeExc
      let inst := (s.nextId, { database := db, app := a : Config })
      return (inst, { cache := some inst, nextId := s.nextId + 1 })

/-- `Config.reset` in the `Except` embedding. -/
def Config.resetExc (s : ConfigState) : Except String ConfigState :=
  Except.ok (Config.reset s)

/-- The instrumented retrieval computes the same instance and state as the
plain one. -/
theorem get_instanceL_fst (env : Env) (s : ConfigState) :
    (Config.get_instanceL env s).1 = Config.get_instance env s := by
  rcases s with ⟨cache, n⟩
  cases cache <;> rfl

/-- Claim C1: for every environment in which one of the five database
environment variables is unset, the record built by
`DatabaseConfig.from_env` has the corresponding field equal to the
documented default. -/
theorem default_fallback_of_unset (env : Env) :
    (env "DB_NAME" = none → (DatabaseConfig.from_env env).dbname = "empls_db")
  ∧ (env "DB_USER" = none → (DatabaseConfig.from_env env).user = "postgres")
  ∧ (env "DB_PASSWORD" = none → (DatabaseConfig.from_env env).password = "0123")
  ∧ (env "DB_HOST" = none → (DatabaseConfig.from_env env).host = "localhost")
  ∧ (env "DB_PORT" = none → (DatabaseConfig.from_env env).port = "5432") := by
  refine ⟨?_, ?_, ?_, ?_, ?_⟩ <;>
    · intro h
      simp [DatabaseConfig.from_env, getenv, h]

/-- Witness for C1: in the all-unset environment the hypotheses hold and
every field carries its default. -/
theorem default_fallback_of_unset_witness :
    ((fun _ => none : Env) "DB_NAME" = none)
  ∧ (DatabaseConfig.from_env (fun _ => none)).dbname = "empls_db"
  ∧ (DatabaseConfig.from_env (fun _ => none)).port = "5432" :=
  ⟨rfl, (default_fallback_of_unset (fun _ => none)).1 rfl,
    (default_fallback_of_unset (fun _ => none)).2.2.2.2 rfl⟩

/-- Claim C2: for every environment in which one of the five database
environment variables is set to an arbitrary string, the record built by
`DatabaseConfig.from_env` has the corresponding field equal to that exact
string, with no transformation; in particular the port field is the literal
text of `DB_PORT`. -/
theorem env_override_exact (env : Env) (v : String) :
    (env "DB_NAME" = some v → (DatabaseConfig.from_env env).dbname = v)
  ∧ (env "DB_USER" = some v → (DatabaseConfig.from_env env).user = v)
  ∧ (env "DB_PASSWORD" = some v → (DatabaseConfig.from_env env).password = v)
  ∧ (env "DB_HOST" = some v → (DatabaseConfig.from_env env).host = v)
  ∧ (env "DB_PORT" = some v → (DatabaseConfig.from_env env).port = v) := by
  refine ⟨?_, ?_, ?_, ?_, ?_⟩ <;>
    · intro h
      simp [DatabaseConfig.from_env, getenv, h]

/-- Witness for C2: with `DB_PORT=6543` the hypothesis holds and the port
field is the text "6543". -/
theorem env_override_exact_witness :
    ((fun k => if k = "DB_PORT" then some "6543" else none : Env) "DB_PORT"
      = some "6543")
  ∧ (DatabaseConfig.from_env
      (fun k => if k = "DB_PORT" then some "6543" else none)).port = "6543" :=
  ⟨by decide,
    (env_override_exact (fun k => if k = "DB_PORT" then some "6543" else none)
      "6543").2.2.2.2 (by decide)⟩

/-- Claim C3: regardless of the environment, a freshly constructed `Config`
carries an `AppConfig` equal to default construction, with application name
"Employee Systems", version "1.01", debug disabled, log level "INFO", and
log file pattern "app_errors_{date}.log". -/
theorem app_defaults_fixed (env : Env) :
    (Config.init env).app = ({} : AppConfig)
  ∧ (Config.init env).app.app_name = "Employee Systems"
  ∧ (Config.init env).app.version = "1.01"
  ∧ (Config.init env).app.debug = false
  ∧ (Config.init env).app.log_level = "INFO"
  ∧ (Config.init env).app.log_file_pattern = "app_errors_{date}.log" :=
  ⟨rfl, rfl, rfl, rfl, rfl, rfl⟩

/-- A second retrieval with no intervening reset leaves the state
unchanged. -/
theorem getState_getState (env : Env) (s : ConfigState) :
    getState env (getState env s) = getState env s := by
  rcases s with ⟨cache, n⟩
  cases cache <;> simp [getState, Config.get_instance]

/-- A second retrieval with no intervening reset returns the same
instance. -/
theorem getInst_getState (env : Env) (s : ConfigState) :
    getInst env (getState env s) = getInst env s := by
  rcases s with ⟨cache, n⟩
  cases cache <;> simp [getInst, getState, Config.get_instance]

/-- Claim C4: retrieval is idempotent while no reset intervenes: for every
state and every N ≥ 1, N consecutive calls of `Config.get_instance` leave
the same cache state as a single call, and every retrieval at or after the
first returns the identical instance (same object tag and same value). -/
theorem get_instance_idempotent (env : Env) (s : ConfigState) (n : ℕ)
    (h : 1 ≤ n) :
    (getState env)^[n] s = getState env s
  ∧ ∀ k, getInst env ((getState env)^[k] (getState env s)) = getInst env s := by
  obtain ⟨m, rfl⟩ : ∃ m, n = m + 1 := ⟨n - 1, (Nat.succ_pred_eq_of_pos h).symm⟩
  constructor
  · rw [Function.iterate_succ_apply]
    exact Function.iterate_fixed (getState_getState env s) m
  · intro k
    rw [Function.iterate_fixed (getState_getState env s) k]
    exact getInst_getState env s

/-- Witness for C4: three retrievals from the start state behave as one. -/
theorem get_instance_idempotent_witness :
    1 ≤ 3
  ∧ ((getState (fun _ => none))^[3] ConfigState.initial
      = getState (fun _ => none) ConfigState.initial
    ∧ ∀ k, getInst (fun _ => none)
        ((getState (fun _ => none))^[k]
          (getState (fun _ => none) ConfigState.initial))
      = getInst (fun _ => none) ConfigState.initial) :=
  ⟨by decide,
    get_instance_idempotent (fun _ => none) ConfigState.initial 3 (by decide)⟩

/-- Claim C5: from any well-formed state, after a retrieval, a reset, and a
second retrieval, the second instance is distinct from the first (different
object tag), the second instance is built by re-reading the environment in
force at that time, and, when the first retrieval constructed the instance,
the first instance still carries the values built from the first
environment. -/
theorem reset_forces_rebuild (env1 env2 : Env) (s0 : ConfigState)
    (hwf : WF s0) :
    (Config.get_instance env2
        (Config.reset (Config.get_instance env1 s0).2)).1.1
      ≠ (Config.get_instance env1 s0).1.1
  ∧ (Config.get_instance env2
        (Config.reset (Config.get_instance env1 s0).2)).1.2 = Config.init env2
  ∧ (s0.cache = none →
      (Config.get_instance env1 s0).1.2 = Config.init env1) := by
  rcases s0 with ⟨cache, n⟩
  cases cache with
  | none =>
      refine ⟨?_, rfl, fun _ => rfl⟩
      simp [Config.get_instance, Config.reset]
  | some inst =>
      have hlt : inst.1 < n := hwf
      refine ⟨?_, rfl, ?_⟩
      · simp only [Config.get_instance, Config.reset]
        exact fun hEq => absurd hEq.symm (Nat.ne_of_lt hlt)
      · intro hc
        exact absurd hc (by simp)

/-- Witness for C5: starting from the initial state with an empty first
environment and `DB_HOST` set in the second, the rebuild is observed. -/
theorem reset_forces_rebuild_witness :
    WF ConfigState.initial
  ∧ ((Config.get_instance (fun k => if k = "DB_HOST" then some "db2" else none)
        (Config.reset
          (Config.get_instance (fun _ => none) ConfigState.initial).2)).1.1
      ≠ (Config.get_instance (fun _ => none) ConfigState.initial).1.1
    ∧ (Config.get_instance (fun k => if k = "DB_HOST" then some "db2" else none)
        (Config.reset
          (Config.get_instance (fun _ => none) ConfigState.initial).2)).1.2
      = Config.init (fun k => if k = "DB_HOST" then some "db2" else none)
    ∧ (ConfigState.initial.cache = none →
        (Config.get_instance (fun _ => none) ConfigState.initial).1.2
          = Config.init (fun _ => none))) :=
  ⟨trivial,
    reset_forces_rebuild (fun _ => none)
      (fun k => if k = "DB_HOST" then some "db2" else none)
      ConfigState.initial trivial⟩

/-- Claim C6: an environment variable set to the empty string is accepted
as-is — the empty string becomes the field's value, no default replaces it,
and the construction still raises no error. -/
theorem empty_string_accepted (env : Env) :
    (env "DB_NAME" = some "" → (DatabaseConfig.from_env env).dbname = "")
  ∧ (env "DB_USER" = some "" → (DatabaseConfig.from_env env).user = "")
  ∧ (env "DB_PASSWORD" = some "" → (DatabaseConfig.from_env env).password = "")
  ∧ (env "DB_HOST" = some "" → (DatabaseConfig.from_env env).host = "")
  ∧ (env "DB_PORT" = some "" → (DatabaseConfig.from_env env).port = "")
  ∧ DatabaseConfig.from_envExc env
      = Except.ok (DatabaseConfig.from_env env) := by
  refine ⟨?_, ?_, ?_, ?_, ?_, rfl⟩ <;>
    · intro h
      simp [DatabaseConfig.from_env, getenv, h]

/-- Witness for C6: `DB_NAME` set to the empty string yields an empty
`dbname`, not the default. -/
theorem empty_string_accepted_witness :
    ((fun k => if k = "DB_NAME" then some "" else none : Env) "DB_NAME"
      = some "")
  ∧ (DatabaseConfig.from_env
      (fun k => if k = "DB_NAME" then some "" else none)).dbname = "" :=
  ⟨by decide,
    (empty_string_accepted
      (fun k => if k = "DB_NAME" then some "" else none)).1 (by decide)⟩

/-- Claim C7: every operation of the component is total: in the `Except`
embedding, building database settings, constructing application settings,
retrieving the singleton and resetting it always succeed, on every
environment and every cache state. -/
theorem operations_total (env : Env) (s : ConfigState) :
    DatabaseConfig.from_envExc env = Except.ok (DatabaseConfig.from_env env)
  ∧ AppConfig.makeExc = Except.ok ({} : AppConfig)
  ∧ Config.get_instanceExc env s = Except.ok (Config.get_instance env s)
  ∧ Config.resetExc s = Except.ok (Config.reset s) := by
  rcases s with ⟨cache, n⟩
  cases cache <;> exact ⟨rfl, rfl, rfl, rfl⟩

/-- Every step of the singleton state machine logs either exactly the five
database variables (a construction) or nothing (a cache hit or a reset). -/
theorem step_log (env : Env) (s : ConfigState) (op : Op) :
    (step env s op).2 = fiveKeys ∨ (step env s op).2 = [] := by
  rcases s with ⟨cache, n⟩
  cases op with
  | get => cases cache with
    | none => exact Or.inl rfl
    | some inst => exact Or.inr rfl
  | reset => exact Or.inr rfl

/-- Claim C8: in every execution of the singleton state machine, the five
database environment variables are read exactly once per construction — a
retrieval on an empty cache reads each of the five exactly once, a
retrieval that finds a cached instance reads none, and every step of every
run logs either the five reads of a construction or no reads at all. -/
theorem env_read_once_per_construction (env : Env) (s : ConfigState) :
    fiveKeys.Nodup
  ∧ (s.cache = none → (Config.get_instanceL env s).2 = fiveKeys)
  ∧ (∀ inst, s.cache = some inst → (Config.get_instanceL env s).2 = [])
  ∧ ∀ ops log, log ∈ run env s ops → log = fiveKeys ∨ log = [] := by
  refine ⟨by decide, ?_, ?_, ?_⟩
  · intro h
    rcases s with ⟨cache, n⟩
    cases cache
    · rfl
    · exact absurd h (by simp)
  · intro inst h
    rcases s with ⟨cache, n⟩
    cases cache
    · exact absurd h (by simp)
    · rfl
  · intro ops
    induction ops generalizing s with
    | nil => intro log hlog; simp [run] at hlog
    | cons op ops ih =>
        intro log hlog
        simp only [run, List.mem_cons] at hlog
        rcases hlog with h | h
        · exact h ▸ step_log env s op
        · exact ih _ log h

/-- Witness for C8: from the initial state a retrieval reads exactly the
five variables, and after it a cached retrieval reads none. -/
theorem env_read_once_per_construction_witness :
    ConfigState.initial.cache = none
  ∧ (Config.get_instanceL (fun _ => none) ConfigState.initial).2 = fiveKeys
  ∧ run (fun _ => none) ConfigState.initial [Op.get, Op.get]
      = [fiveKeys, []] :=
  ⟨rfl,
    (env_read_once_per_construction (fun _ => none) ConfigState.initial).2.1
      rfl,
    rfl⟩

/-- Claim C9: `Config.reset` is idempotent on the cache state — resetting
twice equals resetting once — and resetting a state whose cache is empty is
a no-op. -/
theorem reset_idempotent (s : ConfigState) :
    Config.reset (Config.reset s) = Config.reset s
  ∧ (s.cache = none → Config.reset s = s) := by
  refine ⟨rfl, ?_⟩
  intro h
  rcases s with ⟨cache, n⟩
  cases cache
  · rfl
  · exact absurd h (by simp)

/-- Witness for C9: resetting the never-cached initial state is a no-op. -/
theorem reset_idempotent_witness :
    ConfigState.initial.cache = none
  ∧ Config.reset ConfigState.initial = ConfigState.initial :=
  ⟨rfl, (reset_idempotent ConfigState.initial).2 rfl⟩

/-- Claim C10: when none of the five database environment variables is set,
`DatabaseConfig.from_env` produces exactly the record of no-argument default
construction, because its fallbacks are the class-level field defaults. -/
theorem from_env_refines_default (env : Env)
    (h1 : env "DB_NAME" = none) (h2 : env "DB_USER" = none)
    (h3 : env "DB_PASSWORD" = none) (h4 : env "DB_HOST" = none)
    (h5 : env "DB_PORT" = none) :
    DatabaseConfig.from_env env = ({} : DatabaseConfig) := by
  simp [DatabaseConfig.from_env, getenv, h1, h2, h3, h4, h5]

/-- Witness for C10: the all-unset environment satisfies every hypothesis
and yields the default record. -/
theorem from_env_refines_default_witness :
    ((fun _ => none : Env) "DB_NAME" = none)
  ∧ DatabaseConfig.from_env (fun _ => none) = ({} : DatabaseConfig) :=
  ⟨rfl, from_env_refines_default (fun _ => none) rfl rfl rfl rfl rfl⟩

end EMS
